import Mathlib

/-!
Verification development for the Vlibe edit-mode SDK core
(`src/edit-mode.ts` of `@withvlibe/editmode-sdk`).

The DOM is shallowly embedded: a document is a tree of element and text
nodes rooted at `document.body`; an element occurrence is identified by its
path of child indices from the body.  Browser services that the code calls
but does not define (`CSS.escape`, `getComputedStyle`,
`getBoundingClientRect`, `document.querySelector`, scroll offsets) are
parameters of a `Browser` environment record.  The module-level mutable
state of the script is a `GState` record and every event handler is a pure
state-transition function; `window.parent.postMessage` calls are collected
as an output trace.
-/

namespace VlibeEdit

/-- The JS whitespace class used by `String.prototype.trim` and `\s`
(core set: space, tab, newline, carriage return, vertical tab, form feed,
NBSP, line/paragraph separators, BOM). -/
def jsWhitespaceB (c : Char) : Bool :=
  c == ' ' || c == '\t' || c == '\n' || c == '\r' || c == '\x0b' ||
  c == '\x0c' || c == '\xa0' || c == '\u2028' || c == '\u2029' || c == '\uFEFF'

/-- Trim on the character list: drop leading and trailing whitespace. -/
def listTrim (l : List Char) : List Char :=
  ((l.dropWhile jsWhitespaceB).reverse.dropWhile jsWhitespaceB).reverse

/-- JS `s.trim()`. -/
def jsTrim (s : String) : String := ⟨listTrim s.data⟩

/-- JS `s.slice(0, n)` for a non-negative `n`. -/
def jsSlice (s : String) (n : Nat) : String := ⟨s.data.take n⟩

/-- Element attributes and inline style carried by a DOM element node.
`tagName` is stored the way the DOM exposes it (uppercase for HTML);
the code lowercases it where it needs to. -/
structure ElemData where
  tagName : String
  id : String
  className : String
  src : String
  style : List (String × String)
  deriving DecidableEq

/-- A DOM node: an element with attributes and child nodes, or a text node.
The document is the `document.body` element together with its subtree. -/
inductive DomNode where
  | elem (d : ElemData) (children : List DomNode)
  | text (content : String)

/-- `nodeType === Node.ELEMENT_NODE`. -/
def isElemNode : DomNode → Bool
  | .elem _ _ => true
  | .text _ => false

/-- `nodeType === Node.TEXT_NODE`. -/
def isTextNode : DomNode → Bool
  | .text _ => true
  | .elem _ _ => false

/-- `tagName` of a node (elements only; text nodes give `""`). -/
def tagOf : DomNode → String
  | .elem d _ => d.tagName
  | .text _ => ""

/-- Navigate from a node along a path of child indices. -/
def nodeAt : DomNode → List Nat → Option DomNode
  | n, [] => some n
  | .elem _ cs, i :: rest =>
    match cs.get? i with
    | some c => nodeAt c rest
    | none => none
  | .text _, _ :: _ => none

/-- Replace the child at an index (leaving the list unchanged out of range). -/
def setChild : List DomNode → Nat → DomNode → List DomNode
  | [], _, _ => []
  | _ :: cs, 0, n => n :: cs
  | c :: cs, i + 1, n => c :: setChild cs i n

/-- Apply a function to the node at a path (identity when the path dangles). -/
def updateAt : DomNode → List Nat → (DomNode → DomNode) → DomNode
  | n, [], f => f n
  | .elem d cs, i :: rest, f =>
    match cs.get? i with
    | some c => .elem d (setChild cs i (updateAt c rest f))
    | none => .elem d cs
  | .text s, _ :: _, _ => .text s

mutual

/-- `node.textContent` read on an element: the concatenated text of all
descendant text nodes (mutually with the list version). -/
def textContentOf : DomNode → String
  | .text s => s
  | .elem _ cs => textContentList cs

/-- Concatenated `textContent` of a list of nodes. -/
def textContentList : List DomNode → String
  | [] => ""
  | n :: ns => textContentOf n ++ textContentList ns

end

/-! ## Identity Resolver (`getXPath`, `getSelector`) -/

/-- The string `//*[@id="<id>"]` produced by `getXPath`'s id short-circuit. -/
def xpathIdOf (i : String) : String := "//*[@id=\"" ++ i ++ "\"]"

/-- `ix` of the `getXPath` sibling scan: number of element siblings with the
same tag name strictly before position `i` in the parent's `childNodes`. -/
def countSameTagBefore (siblings : List DomNode) (i : Nat) (tag : String) : Nat :=
  ((siblings.take i).filter fun n => isElemNode n && tagOf n == tag).length

/-- `getXPath` on a located element, working on the reversed path
(leaf-to-root), mirroring the recursion toward `parentNode` in the source.
The source checks, in order: the element's `id` (short-circuit), whether the
element is `document.body` (path exhausted), then scans the parent's
`childNodes` for the element, counting preceding same-tag element siblings. -/
def getXPathRev (body : DomNode) : List Nat → String
  | [] =>
    match body with
    | .elem d _ => if d.id ≠ "" then xpathIdOf d.id else "/html/body"
    | .text _ => ""
  | i :: rest =>
    match nodeAt body rest.reverse with
    | some (.elem _ siblings) =>
      match siblings.get? i with
      | some (.elem d _) =>
        if d.id ≠ "" then xpathIdOf d.id
        else
          getXPathRev body rest ++ "/" ++ d.tagName.toLower ++ "[" ++
            toString (countSameTagBefore siblings i d.tagName + 1) ++ "]"
      | _ => ""
    | _ => ""

/-- `getXPath(element)`: `none` stands for a `null` argument, `some path`
for the element at that path of the body tree. -/
def getXPath (body : DomNode) (elt : Option (List Nat)) : String :=
  match elt with
  | none => ""
  | some path =>
    match nodeAt body path with
    | some (.elem _ _) => getXPathRev body path.reverse
    | _ => ""

/-- The class part of a selector segment: split the trimmed `className` on
whitespace, drop empties and pseudo-colon classes, keep the first two,
escape each and join with dots (empty when no class survives). -/
def classSelectorPart (esc : String → String) (className : String) : String :=
  if className ≠ "" then
    let classes := ((jsTrim className).split jsWhitespaceB).filter
      fun c => c != "" && !(c.contains ':')
    if 0 < classes.length then
      "." ++ String.intercalate "." ((classes.take 2).map esc)
    else ""
  else ""

/-- The `:nth-of-type(n)` disambiguator: added only when the parent has more
than one element child with this tag; `n` is 1 plus the number of same-tag
element children before position `i` in `childNodes`. -/
def nthOfTypePart (siblings : List DomNode) (i : Nat) (tag : String) : String :=
  let sameTag := siblings.filter fun n => isElemNode n && tagOf n == tag
  if 1 < sameTag.length then
    ":nth-of-type(" ++ toString (countSameTagBefore siblings i tag + 1) ++ ")"
  else ""

/-- One selector segment for an element that has a parent in the tree. -/
def selectorSegment (esc : String → String) (d : ElemData)
    (siblings : List DomNode) (i : Nat) : String :=
  d.tagName.toLower ++ classSelectorPart esc d.className ++
    nthOfTypePart siblings i d.tagName

/-- The upward walk of `getSelector`, on the reversed path, producing the
root-to-leaf list of segments (`path.unshift` order).  An element with an
id ends the walk with a lone `#id` segment; reaching an element whose
parent is `document.body` prepends the explicit `body` anchor.  The model
roots the tree at `body`, so `body` itself has no parent (the source never
builds a selector for `body`: pointer targets on `BODY` are excluded). -/
def getSelectorRev (esc : String → String) (body : DomNode) : List Nat → List String
  | [] =>
    match body with
    | .elem d _ =>
      if d.id ≠ "" then ["#" ++ esc d.id]
      else [d.tagName.toLower ++ classSelectorPart esc d.className]
    | .text _ => []
  | i :: rest =>
    match nodeAt body rest.reverse with
    | some (.elem _ siblings) =>
      match siblings.get? i with
      | some (.elem d _) =>
        if d.id ≠ "" then ["#" ++ esc d.id]
        else
          let seg := selectorSegment esc d siblings i
          if rest.isEmpty then ["body", seg]
          else getSelectorRev esc body rest ++ [seg]
      | _ => []
    | _ => []

/-- `getSelector(element)`: id short-circuit, otherwise the joined upward
walk.  `esc` is the browser's `CSS.escape`. -/
def getSelector (esc : String → String) (body : DomNode) (elt : Option (List Nat)) : String :=
  match elt with
  | none => ""
  | some path =>
    match nodeAt body path with
    | some (.elem d _) =>
      if d.id ≠ "" then "#" ++ esc d.id
      else String.intercalate " > " (getSelectorRev esc body path.reverse)
    | _ => ""

/-! ## Inspector (`getElementInfo`) -/

/-- The subset of `getComputedStyle` properties the script reads
(the nine reported ones plus `backgroundImage`, read by the image check). -/
structure ComputedStyleDecl where
  color : String
  backgroundColor : String
  fontSize : String
  fontWeight : String
  padding : String
  margin : String
  fontFamily : String
  lineHeight : String
  borderRadius : String
  backgroundImage : String
  deriving DecidableEq

/-- The `computedStyles` field of an `ElementInfo`. -/
structure ElementComputedStyles where
  color : String
  backgroundColor : String
  fontSize : String
  fontWeight : String
  padding : String
  margin : String
  fontFamily : String
  lineHeight : String
  borderRadius : String
  deriving DecidableEq

/-- `getBoundingClientRect()` of an element (viewport-relative). -/
structure DomRect where
  top : Int
  left : Int
  width : Int
  height : Int
  deriving DecidableEq

/-- The `boundingRect` field of an `ElementInfo`. -/
structure ElementBoundingRect where
  top : Int
  left : Int
  width : Int
  height : Int
  viewportTop : Int
  viewportLeft : Int
  deriving DecidableEq

/-- The serializable element descriptor sent to the parent frame. -/
structure ElementInfo where
  tagName : String
  textContent : Option String
  className : String
  id : String
  xpath : String
  selector : String
  computedStyles : ElementComputedStyles
  boundingRect : ElementBoundingRect
  isTextElement : Bool
  isImageElement : Bool
  imageSrc : Option String
  deriving DecidableEq

/-- Outcome of `document.querySelector`: a match, no match, or a thrown
`SyntaxError` for an invalid selector. -/
inductive QueryRes where
  | found (path : List Nat)
  | notFound
  | throwErr
  deriving DecidableEq

/-- Browser services used by the script but defined outside it:
`CSS.escape`, `getComputedStyle`, `getBoundingClientRect`, the scroll
offsets, and `document.querySelector`. -/
structure Browser where
  esc : String → String
  stylesOf : List Nat → ComputedStyleDecl
  rectOf : List Nat → DomRect
  scrollX : Int
  scrollY : Int
  qs : String → QueryRes

/-- The `textTags` allow-list of `getElementInfo`. -/
def textTags : List String :=
  ["p", "h1", "h2", "h3", "h4", "h5", "h6", "span", "a", "button", "label",
   "li", "td", "th", "div"]

/-- The per-child test of the `isTextElement` heuristic: a direct child that
is a text node whose content is non-whitespace. -/
def isNonWsText : DomNode → Bool
  | .text s => jsTrim s != ""
  | .elem _ _ => false

/-- `getElementInfo(element)`: `none` for a null argument, otherwise the
descriptor snapshot of the element at `path`. -/
def getElementInfo (env : Browser) (body : DomNode) (elt : Option (List Nat)) :
    Option ElementInfo :=
  match elt with
  | none => none
  | some path =>
    match nodeAt body path with
    | some (.elem d children) =>
      let rect := env.rectOf path
      let styles := env.stylesOf path
      let tag := d.tagName.toLower
      let isTextEl := textTags.contains tag && decide (0 < children.length) &&
        children.any isNonWsText
      let isImageEl := tag == "img" ||
        (tag == "div" && styles.backgroundImage != "" && styles.backgroundImage != "none")
      let trimmed := jsSlice (jsTrim (textContentOf (.elem d children))) 200
      some
        { tagName := tag
          textContent :=
            if isTextEl then (if trimmed = "" then none else some trimmed) else none
          className := d.className
          id := d.id
          xpath := getXPath body (some path)
          selector := getSelector env.esc body (some path)
          computedStyles :=
            { color := styles.color
              backgroundColor := styles.backgroundColor
              fontSize := styles.fontSize
              fontWeight := styles.fontWeight
              padding := styles.padding
              margin := styles.margin
              fontFamily := styles.fontFamily
              lineHeight := styles.lineHeight
              borderRadius := styles.borderRadius }
          boundingRect :=
            { top := rect.top + env.scrollY
              left := rect.left + env.scrollX
              width := rect.width
              height := rect.height
              viewportTop := rect.top
              viewportLeft := rect.left }
          isTextElement := isTextEl
          isImageElement := isImageEl
          imageSrc := if tag == "img" then some d.src else none }
    | _ => none

/-- A computed-style record with empty values, for concrete instantiations. -/
def blankStyles : ComputedStyleDecl :=
  { color := "", backgroundColor := "", fontSize := "", fontWeight := "",
    padding := "", margin := "", fontFamily := "", lineHeight := "",
    borderRadius := "", backgroundImage := "" }

/-- A concrete browser environment for instantiations: identity escaping,
blank styles, zero geometry, a query that never matches. -/
def envW : Browser :=
  { esc := id, stylesOf := fun _ => blankStyles,
    rectOf := fun _ => { top := 0, left := 0, width := 0, height := 0 },
    scrollX := 0, scrollY := 0, qs := fun _ => .notFound }

/-- Element data of a bare tag with no attributes. -/
def bareTag (t : String) : ElemData :=
  { tagName := t, id := "", className := "", src := "", style := [] }

/-! ## Mutation Applier (`applyStyleChange`, `applyTextChange`, `applyImageChange`) -/

/-- Console diagnostics emitted by the mutation appliers. -/
inductive LogEntry where
  | appliedStyle
  | errApplyStyle
  | appliedText
  | errApplyText
  | appliedImage
  | errApplyImage
  deriving DecidableEq

/-- `element.style[property] = value` on an inline-style association list. -/
def setStyleProp (style : List (String × String)) (prop value : String) :
    List (String × String) :=
  if style.any fun p => p.1 == prop then
    style.map fun p => if p.1 == prop then (prop, value) else p
  else style ++ [(prop, value)]

/-- Set an inline style property on an element node. -/
def setStyleOnElem (prop value : String) : DomNode → DomNode
  | .elem d cs => .elem { d with style := setStyleProp d.style prop value } cs
  | .text s => .text s

/-- The body of `applyStyleChange` before its `catch`: `querySelector` (which
can throw on an invalid selector), then the inline-style assignment and the
success log when an element matched. -/
def applyStyleChangeBody (env : Browser) (doc : DomNode) (sel prop value : String) :
    Except Unit (DomNode × List LogEntry) :=
  match env.qs sel with
  | .throwErr => .error ()
  | .notFound => .ok (doc, [])
  | .found path => .ok (updateAt doc path (setStyleOnElem prop value), [.appliedStyle])

/-- `applyStyleChange(selector, property, value)`: the `try`/`catch` wrapper —
a thrown error is swallowed and only logged, the document untouched. -/
def applyStyleChange (env : Browser) (doc : DomNode) (sel prop value : String) :
    DomNode × List LogEntry :=
  match applyStyleChangeBody env doc sel prop value with
  | .ok r => r
  | .error _ => (doc, [.errApplyStyle])

/-- Replace the content of the first direct child text node. -/
def replaceFirstText (children : List DomNode) (newText : String) : List DomNode :=
  match children with
  | [] => []
  | .text _ :: rest => .text newText :: rest
  | c :: rest => c :: replaceFirstText rest newText

/-- The per-element effect of `applyTextChange`: if some direct child is a
text node, update the first one; otherwise `element.textContent = newText`
(the DOM setter replaces all children with one text node, or with nothing
for the empty string). -/
def applyTextToElem (newText : String) : DomNode → DomNode
  | .elem d cs =>
    if cs.any isTextNode then .elem d (replaceFirstText cs newText)
    else .elem d (if newText = "" then [] else [.text newText])
  | .text s => .text s

/-- The body of `applyTextChange` before its `catch`. -/
def applyTextChangeBody (env : Browser) (doc : DomNode) (sel newText : String) :
    Except Unit (DomNode × List LogEntry) :=
  match env.qs sel with
  | .throwErr => .error ()
  | .notFound => .ok (doc, [])
  | .found path => .ok (updateAt doc path (applyTextToElem newText), [.appliedText])

/-- `applyTextChange(selector, newText)` with its `try`/`catch` wrapper. -/
def applyTextChange (env : Browser) (doc : DomNode) (sel newText : String) :
    DomNode × List LogEntry :=
  match applyTextChangeBody env doc sel newText with
  | .ok r => r
  | .error _ => (doc, [.errApplyText])

/-- The per-element effect of `applyImageChange`: set `src` on an `img`,
otherwise the `backgroundImage` inline style to `url(newSrc)`. -/
def applyImageToElem (newSrc : String) : DomNode → DomNode
  | .elem d cs =>
    if d.tagName.toLower == "img" then .elem { d with src := newSrc } cs
    else .elem { d with style := setStyleProp d.style "backgroundImage" ("url(" ++ newSrc ++ ")") } cs
  | .text s => .text s

/-- The body of `applyImageChange` before its `catch`. -/
def applyImageChangeBody (env : Browser) (doc : DomNode) (sel newSrc : String) :
    Except Unit (DomNode × List LogEntry) :=
  match env.qs sel with
  | .throwErr => .error ()
  | .notFound => .ok (doc, [])
  | .found path => .ok (updateAt doc path (applyImageToElem newSrc), [.appliedImage])

/-- `applyImageChange(selector, newSrc)` with its `try`/`catch` wrapper. -/
def applyImageChange (env : Browser) (doc : DomNode) (sel newSrc : String) :
    DomNode × List LogEntry :=
  match applyImageChangeBody env doc sel newSrc with
  | .ok r => r
  | .error _ => (doc, [.errApplyImage])

/-- Concrete document for the C4 witness: a `P` with a text child and a
nested `B`, and a second `P` with only an element child. -/
def docW4 : DomNode :=
  .elem (bareTag "BODY")
    [.elem (bareTag "P") [.text "old", .elem (bareTag "B") []],
     .elem (bareTag "P") [.elem (bareTag "B") []]]

/-- Concrete environment for the C4 witness: `"#m"` resolves to the first
`P`, `"#n"` to the second. -/
def envW4 : Browser :=
  { envW with qs := fun sel =>
      if sel = "#m" then QueryRes.found [0]
      else if sel = "#n" then QueryRes.found [1]
      else QueryRes.notFound }

/-- Concrete environment for the C5 witness: `"#m"` resolves to the lone
child, `"#bad"` throws, anything else matches nothing. -/
def envW5 : Browser :=
  { envW with qs := fun sel =>
      if sel = "#m" then QueryRes.found [0]
      else if sel = "#bad" then QueryRes.throwErr
      else QueryRes.notFound }

/-- Concrete document for the C5 witness. -/
def docW5 : DomNode := .elem (bareTag "BODY") [.elem (bareTag "DIV") []]

/-! ## Engine state, overlays and event handlers -/

/-- The mutable style of an overlay `div` (the fields the script writes). -/
structure Overlay where
  display : String
  top : Int
  left : Int
  width : Int
  height : Int
  deriving DecidableEq

/-- A freshly created overlay: `display: none`, geometry not yet set. -/
def hiddenOverlay : Overlay :=
  { display := "none", top := 0, left := 0, width := 0, height := 0 }

/-- The payload of an inbound message; `none` fields are absent keys. -/
structure Payload where
  selector : Option String
  property : Option String
  value : Option String
  newText : Option String
  newSrc : Option String
  deriving DecidableEq

/-- An inbound `message` event's data (`none` stands for a nullish one). -/
structure Msg where
  type : String
  payload : Option Payload
  deriving DecidableEq

/-- A message posted to the parent window. -/
inductive OutMsg where
  | ready
  | hovered (info : ElementInfo)
  | unhovered
  | clicked (info : ElementInfo)
  deriving DecidableEq

/-- The module-level mutable state of the script together with the pieces of
browser state it owns: the document tree, the two overlay nodes, the
listener registrations, the `__VLIBE_EDIT_MODE_INITIALIZED__` window flag
(`initFlag`), whether `cleanupFn` has been stored (`cleanupRegistered`),
and the body cursor. -/
structure GState where
  doc : DomNode
  isEditModeActive : Bool
  highlightOverlay : Option Overlay
  selectionOverlay : Option Overlay
  selectedElement : Option (List Nat)
  lastHoveredElement : Option (List Nat)
  lastFrameTime : Nat
  readyInterval : Bool
  readyAcknowledged : Bool
  cleanupRegistered : Bool
  initFlag : Bool
  msgListenerMain : Bool
  msgListenerAck : Bool
  pointerListeners : Bool
  cursor : String

/-- `createHighlightOverlay`: idempotent factory (the overlay node itself
lives outside the modeled content tree; only its style is tracked). -/
def createHighlightOverlayS (s : GState) : GState :=
  match s.highlightOverlay with
  | some _ => s
  | none => { s with highlightOverlay := some hiddenOverlay }

/-- `createSelectionOverlay`: idempotent factory. -/
def createSelectionOverlayS (s : GState) : GState :=
  match s.selectionOverlay with
  | some _ => s
  | none => { s with selectionOverlay := some hiddenOverlay }

/-- `updateSelectionOverlay(element)`: lazily create the overlay, then hide
it for a null element or move it over the element's client rectangle. -/
def updateSelectionOverlayS (env : Browser) (s : GState)
    (element : Option (List Nat)) : GState :=
  let s1 := if s.selectionOverlay.isNone then createSelectionOverlayS s else s
  match element with
  | none =>
    match s1.selectionOverlay with
    | some ov => { s1 with selectionOverlay := some { ov with display := "none" } }
    | none => s1
  | some path =>
    let rect := env.rectOf path
    let ov2 : Overlay := { display := "block", top := rect.top, left := rect.left,
                           width := rect.width, height := rect.height }
    match s1.selectionOverlay with
    | some _ => { s1 with selectionOverlay := some ov2 }
    | none => s1

/-- `clearSelection()`. -/
def clearSelectionS (env : Browser) (s : GState) : GState :=
  updateSelectionOverlayS env { s with selectedElement := none } none

/-- `updateHighlight(element)`: hide when the overlay is missing or the
element is null, otherwise move it over the element. -/
def updateHighlightS (env : Browser) (s : GState)
    (element : Option (List Nat)) : GState :=
  match s.highlightOverlay, element with
  | none, _ => s
  | some ov, none => { s with highlightOverlay := some { ov with display := "none" } }
  | some _, some path =>
    let rect := env.rectOf path
    let ov2 : Overlay := { display := "block", top := rect.top, left := rect.left,
                           width := rect.width, height := rect.height }
    { s with highlightOverlay := some ov2 }

/-- `enableEditMode()`: mark active, create both overlays, set the crosshair
cursor and attach the three pointer listeners. -/
def enableEditModeS (s : GState) : GState :=
  let s1 := { s with isEditModeActive := true }
  let s2 := createHighlightOverlayS s1
  let s3 := createSelectionOverlayS s2
  { s3 with cursor := "crosshair", pointerListeners := true }

/-- `disableEditMode()`: mark inactive, drop the hover target, clear the
selection, hide the highlight, restore the cursor, detach the listeners. -/
def disableEditModeS (env : Browser) (s : GState) : GState :=
  let s1 := { s with isEditModeActive := false, lastHoveredElement := none }
  let s2 := clearSelectionS env s1
  let s3 := match s2.highlightOverlay with
    | some ov => { s2 with highlightOverlay := some { ov with display := "none" } }
    | none => s2
  { s3 with cursor := "", pointerListeners := false }

/-- `handleMessage(event)`: the command dispatch table. -/
def handleMessageS (env : Browser) (s : GState) (data : Option Msg) : GState :=
  match data with
  | none => s
  | some m =>
    if m.type = "" then s
    else if m.type = "EDIT_MODE_ENABLE" then enableEditModeS s
    else if m.type = "EDIT_MODE_DISABLE" then disableEditModeS env s
    else if m.type = "APPLY_STYLE_CHANGE" then
      match m.payload with
      | some p =>
        match p.selector, p.property, p.value with
        | some sel, some prop, some v =>
          { s with doc := (applyStyleChange env s.doc sel prop v).1 }
        | _, _, _ => s
      | none => s
    else if m.type = "APPLY_TEXT_CHANGE" then
      match m.payload with
      | some p =>
        match p.selector, p.newText with
        | some sel, some txt => { s with doc := (applyTextChange env s.doc sel txt).1 }
        | _, _ => s
      | none => s
    else if m.type = "APPLY_IMAGE_CHANGE" then
      match m.payload with
      | some p =>
        match p.selector, p.newSrc with
        | some sel, some src => { s with doc := (applyImageChange env s.doc sel src).1 }
        | _, _ => s
      | none => s
    else if m.type = "CLEAR_SELECTION" then clearSelectionS env s
    else if m.type = "EDIT_MODE_READY_ACK" then
      let s1 := { s with readyAcknowledged := true }
      if s1.readyInterval then { s1 with readyInterval := false } else s1
    else s

/-- `handleAckMessage(event)`: acknowledgment detection on either
`EDIT_MODE_ENABLE` or `EDIT_MODE_READY_ACK`. -/
def handleAckMessageS (s : GState) (data : Option Msg) : GState :=
  match data with
  | none => s
  | some m =>
    if m.type = "EDIT_MODE_ENABLE" ∨ m.type = "EDIT_MODE_READY_ACK" then
      let s1 := { s with readyAcknowledged := true }
      if s1.readyInterval then { s1 with readyInterval := false } else s1
    else s

/-- A `message` event on the window: the two listeners run in registration
order, each only when registered. -/
def onWindowMessage (env : Browser) (s : GState) (data : Option Msg) : GState :=
  let s1 := if s.msgListenerMain then handleMessageS env s data else s
  if s1.msgListenerAck then handleAckMessageS s1 data else s1

/-- `sendReady()`: post `EDIT_MODE_READY` unless already acknowledged. -/
def sendReadyS (s : GState) : GState × List OutMsg :=
  if s.readyAcknowledged then (s, []) else (s, [OutMsg.ready])

/-- `handleMouseMove(e)`: active check, ~60fps throttle against the
monotonic clock, overlay/chrome target exclusion, then hover-change
detection, highlight repositioning and the hover descriptor message. -/
def handleMouseMoveS (env : Browser) (now : Nat) (s : GState)
    (target : List Nat) : GState × List OutMsg :=
  if !s.isEditModeActive then (s, [])
  else if now - s.lastFrameTime < 16 then (s, [])
  else
    let s1 := { s with lastFrameTime := now }
    match nodeAt s1.doc target with
    | some (.elem d _) =>
      if d.id = "__vlibe_edit_highlight__" ∨ d.id = "__vlibe_edit_selection__" ∨
          d.tagName = "HTML" ∨ d.tagName = "BODY" then (s1, [])
      else if some target ≠ s1.lastHoveredElement then
        let s2 := { s1 with lastHoveredElement := some target }
        let s3 := updateHighlightS env s2 (some target)
        match getElementInfo env s3.doc (some target) with
        | some info => (s3, [OutMsg.hovered info])
        | none => (s3, [])
      else (s1, [])
    | _ => (s1, [])

/-- `handleClick(e)`: active check, overlay exclusion, selection update,
selection overlay repositioning, click descriptor message. -/
def handleClickS (env : Browser) (s : GState) (target : List Nat) :
    GState × List OutMsg :=
  if !s.isEditModeActive then (s, [])
  else
    match nodeAt s.doc target with
    | some (.elem d _) =>
      if d.id = "__vlibe_edit_highlight__" ∨ d.id = "__vlibe_edit_selection__" then (s, [])
      else
        let s1 := { s with selectedElement := some target }
        let s2 := updateSelectionOverlayS env s1 (some target)
        match getElementInfo env s2.doc (some target) with
        | some info => (s2, [OutMsg.clicked info])
        | none => (s2, [])
    | _ => (s, [])

/-- `handleMouseLeave()`: drop the hover target, hide the highlight, emit
the unhover message. -/
def handleMouseLeaveS (s : GState) : GState × List OutMsg :=
  if !s.isEditModeActive then (s, [])
  else
    let s1 := { s with lastHoveredElement := none }
    let s2 := match s1.highlightOverlay with
      | some ov => { s1 with highlightOverlay := some { ov with display := "none" } }
      | none => s1
    (s2, [OutMsg.unhovered])

/-- The 500ms retry interval firing (only a live interval fires). -/
def readyTickS (s : GState) : GState × List OutMsg :=
  if s.readyInterval then sendReadyS s else (s, [])

/-- The 30-second absolute timeout firing: stop the retry interval. -/
def readyTimeoutS (s : GState) : GState :=
  if s.readyInterval then { s with readyInterval := false } else s

/-- The teardown handle returned by `initEditMode`: either the stored
`cleanupFn` closure or the no-op fallback. -/
inductive Handle where
  | noop
  | cleanup
  deriving DecidableEq

/-- The `cleanupFn` closure: remove both message listeners, cancel a pending
retry interval, remove both overlay nodes, reset the window flag. -/
def cleanupS (s : GState) : GState :=
  { s with msgListenerMain := false, msgListenerAck := false,
           readyInterval := false,
           highlightOverlay := none, selectionOverlay := none,
           initFlag := false }

/-- Run a teardown handle. -/
def runHandle : Handle → GState → GState
  | .noop, s => s
  | .cleanup, s => cleanupS s

/-- `initEditMode()` in a browser context (the `typeof window` guard is
outside the model): when the window flag is set, return the stored handle
with no further effect; otherwise set the flag, register both message
listeners, send the first ready beacon, start the retry interval and store
`cleanupFn`. -/
def initEditModeS (s : GState) : GState × Handle × List OutMsg :=
  if s.initFlag then
    (s, (if s.cleanupRegistered then Handle.cleanup else Handle.noop), [])
  else
    let s1 := { s with initFlag := true, msgListenerMain := true, msgListenerAck := true }
    let r := sendReadyS s1
    let s2 := { r.1 with readyInterval := true, cleanupRegistered := true }
    (s2, Handle.cleanup, r.2)

/-- An event the page can observe after the script is loaded. -/
inductive Ev where
  | message (data : Option Msg)
  | tick
  | timeout
  | mouseMove (now : Nat) (target : List Nat)
  | click (target : List Nat)
  | mouseLeave

/-- One event step: message listeners and pointer listeners fire only while
registered, the retry interval only while live. -/
def step (env : Browser) (s : GState) : Ev → GState × List OutMsg
  | .message d => (onWindowMessage env s d, [])
  | .tick => readyTickS s
  | .timeout => (readyTimeoutS s, [])
  | .mouseMove now t => if s.pointerListeners then handleMouseMoveS env now s t else (s, [])
  | .click t => if s.pointerListeners then handleClickS env s t else (s, [])
  | .mouseLeave => if s.pointerListeners then handleMouseLeaveS s else (s, [])

/-- Run a sequence of events, concatenating the posted messages. -/
def runEvents (env : Browser) (s : GState) : List Ev → GState × List OutMsg
  | [] => (s, [])
  | e :: es =>
    let r1 := step env s e
    let r2 := runEvents env r1.1 es
    (r2.1, r1.2 ++ r2.2)

/-- The all-false starting state over a given document: the module state at
script load. -/
def freshState (doc : DomNode) : GState :=
  { doc := doc, isEditModeActive := false, highlightOverlay := none,
    selectionOverlay := none, selectedElement := none, lastHoveredElement := none,
    lastFrameTime := 0, readyInterval := false, readyAcknowledged := false,
    cleanupRegistered := false, initFlag := false, msgListenerMain := false,
    msgListenerAck := false, pointerListeners := false, cursor := "" }

/-- The state right after a fresh `initEditMode()` call on `docW5`. -/
def liveState : GState := (initEditModeS (freshState docW5)).1

/-- A live, enabled state with a selection and a hover target: the engine
after init, enable, and a click, spelled concretely. -/
def stateC3 : GState :=
  { doc := docW5, isEditModeActive := true,
    highlightOverlay := some hiddenOverlay, selectionOverlay := some hiddenOverlay,
    selectedElement := some [0], lastHoveredElement := some [0],
    lastFrameTime := 100, readyInterval := true, readyAcknowledged := false,
    cleanupRegistered := true, initFlag := true, msgListenerMain := true,
    msgListenerAck := true, pointerListeners := true, cursor := "crosshair" }

/-- A live state whose selection overlay has not been created yet (no
enable has happened) and nothing is selected. -/
def stateC9 : GState :=
  { freshState docW5 with
      initFlag := true
      msgListenerMain := true
      msgListenerAck := true
      cleanupRegistered := true
      readyInterval := true }

/-- A live state whose selection overlay exists and is hidden, with nothing
selected. -/
def stateW9 : GState := { stateC9 with selectionOverlay := some hiddenOverlay }

/-- Is an outbound message a hover update? -/
def isHoveredMsg : OutMsg → Bool
  | .hovered _ => true
  | _ => false

/-! ### Navigation lemmas -/

theorem nodeAt_append (p q : List Nat) : ∀ n : DomNode,
    nodeAt n (p ++ q) = match nodeAt n p with
      | some m => nodeAt m q
      | none => none := by
  induction p with
  | nil => intro n; simp [nodeAt]
  | cons i rest ih =>
    intro n
    cases n with
    | text s => simp [nodeAt]
    | elem d cs =>
      simp only [List.cons_append, nodeAt]
      cases cs.get? i with
      | none => simp
      | some c => simpa using ih c

theorem nodeAt_snoc_elem {body : DomNode} {p : List Nat} {i : Nat} {x : DomNode}
    (h : nodeAt body (p ++ [i]) = some x) :
    ∃ pd pcs, nodeAt body p = some (.elem pd pcs) ∧ pcs.get? i = some x := by
  rw [nodeAt_append] at h
  cases hp : nodeAt body p with
  | none => rw [hp] at h; simp at h
  | some m =>
    rw [hp] at h
    cases m with
    | text s => simp [nodeAt] at h
    | elem pd pcs =>
      refine ⟨pd, pcs, rfl, ?_⟩
      simp only [nodeAt] at h
      cases hg : pcs.get? i with
      | none => rw [hg] at h; simp at h
      | some c => rw [hg] at h; simp [nodeAt] at h; rw [h]

/-- C1: for every element whose `id` is non-empty, `getSelector` returns
exactly `#` followed by the CSS-escaped id and `getXPath` returns exactly
`//*[@id="<id>"]`; both answers depend on nothing but the id (the ancestor
context is quantified away), and a null input gives the empty string. -/
theorem C1_id_short_circuit (esc : String → String) (body : DomNode)
    (path : List Nat) (d : ElemData) (cs : List DomNode)
    (h : nodeAt body path = some (.elem d cs)) (hid : d.id ≠ "") :
    getSelector esc body (some path) = "#" ++ esc d.id ∧
    getXPath body (some path) = "//*[@id=\"" ++ d.id ++ "\"]" ∧
    getSelector esc body none = "" ∧
    getXPath body none = "" := by
  refine ⟨?_, ?_, rfl, rfl⟩
  · simp [getSelector, h, hid]
  · show getXPath body (some path) = xpathIdOf d.id
    simp only [getXPath, h]
    cases hrev : path.reverse with
    | nil =>
      have hp : path = [] := by
        have := congrArg List.reverse hrev
        simpa using this
      subst hp
      simp only [nodeAt] at h
      cases h
      simp [getXPathRev, hid]
    | cons i rest =>
      have hp : path = rest.reverse ++ [i] := by
        have := congrArg List.reverse hrev
        simpa using this
      rw [hp] at h
      obtain ⟨pd, pcs, hpar, hget⟩ := nodeAt_snoc_elem h
      rw [List.get?_eq_getElem?] at hget
      simp [getXPathRev, hpar, hget, hid]

/-- Witness for C1 at a concrete document: a `SPAN` with id `x` nested in a
`DIV` under the body. -/
theorem C1_witness :
    let d : ElemData := { tagName := "SPAN", id := "x", className := "", src := "", style := [] }
    let body : DomNode := .elem { tagName := "BODY", id := "", className := "", src := "", style := [] }
      [.elem { tagName := "DIV", id := "", className := "", src := "", style := [] } [.elem d []]]
    nodeAt body [0, 0] = some (.elem d []) ∧ d.id ≠ "" ∧
      (getSelector id body (some [0, 0]) = "#" ++ id d.id ∧
       getXPath body (some [0, 0]) = "//*[@id=\"" ++ d.id ++ "\"]" ∧
       getSelector id body none = "" ∧ getXPath body none = "") := by
  refine ⟨rfl, by decide, C1_id_short_circuit id _ [0, 0] _ [] rfl (by decide)⟩

theorem string_eq_empty_iff_data (s : String) : s = "" ↔ s.data = [] := by
  constructor
  · intro h; rw [h]
  · intro h
    cases s with
    | mk l => cases h; rfl

theorem listTrim_eq_nil_iff (l : List Char) :
    listTrim l = [] ↔ ∀ c ∈ l, jsWhitespaceB c = true := by
  unfold listTrim
  rw [List.reverse_eq_nil_iff, List.dropWhile_eq_nil_iff]
  constructor
  · intro h c hc
    rcases List.mem_append.mp (by
        rw [List.takeWhile_append_dropWhile (p := jsWhitespaceB)]; exact hc :
        c ∈ l.takeWhile jsWhitespaceB ++ l.dropWhile jsWhitespaceB) with h1 | h2
    · exact List.mem_takeWhile_imp h1
    · exact h c (List.mem_reverse.mpr h2)
  · intro h c hc
    exact h c (List.dropWhile_subset _ (List.mem_reverse.mp hc))

theorem jsTrim_eq_empty_iff (s : String) :
    jsTrim s = "" ↔ ∀ c ∈ s.data, jsWhitespaceB c = true := by
  rw [jsTrim, string_eq_empty_iff_data]
  exact listTrim_eq_nil_iff s.data

theorem mem_data_textContentList {s : String} {cs : List DomNode}
    (h : DomNode.text s ∈ cs) : ∀ c ∈ s.data, c ∈ (textContentList cs).data := by
  induction cs with
  | nil => cases h
  | cons n ns ih =>
    intro c hc
    have hdata : (textContentList (n :: ns)).data =
        (textContentOf n).data ++ (textContentList ns).data := rfl
    rw [hdata, List.mem_append]
    rcases List.mem_cons.mp h with h1 | h2
    · left; rw [← h1]; exact hc
    · right; exact ih h2 c hc

theorem jsTrim_textContentList_ne_empty {cs : List DomNode}
    (h : ∃ s, DomNode.text s ∈ cs ∧ jsTrim s ≠ "") :
    jsTrim (textContentList cs) ≠ "" := by
  obtain ⟨s, hmem, hne⟩ := h
  intro hcontra
  apply hne
  rw [jsTrim_eq_empty_iff] at hcontra ⊢
  intro c hc
  exact hcontra c (mem_data_textContentList hmem c hc)

theorem jsSlice_ne_empty {s : String} (h : s ≠ "") : jsSlice s 200 ≠ "" := by
  intro hcontra
  apply h
  rw [string_eq_empty_iff_data] at hcontra ⊢
  rw [jsSlice] at hcontra
  simp only [List.take_eq_nil_iff] at hcontra
  rcases hcontra with h200 | hnil
  · exact absurd h200 (by decide)
  · exact hnil

theorem exists_isNonWsText_iff (cs : List DomNode) :
    (∃ x ∈ cs, isNonWsText x = true) ↔ ∃ s, DomNode.text s ∈ cs ∧ jsTrim s ≠ "" := by
  constructor
  · rintro ⟨n, hmem, hn⟩
    cases n with
    | text s => exact ⟨s, hmem, by simpa [isNonWsText] using hn⟩
    | elem d cs2 => simp [isNonWsText] at hn
  · rintro ⟨s, hmem, hne⟩
    exact ⟨.text s, hmem, by simpa [isNonWsText] using hne⟩

/-- C6: the descriptor's `textContent` is populated exactly when the
`isTextElement` heuristic holds (tag in the allow-list and some direct child
text node with non-whitespace content), and then equals the element's text
content trimmed and truncated to at most 200 characters; a null node is
described as `null`. -/
theorem C6_textContent_iff_isTextElement (env : Browser) (body : DomNode)
    (path : List Nat) (d : ElemData) (cs : List DomNode)
    (h : nodeAt body path = some (.elem d cs)) :
    getElementInfo env body none = none ∧
    ∃ info, getElementInfo env body (some path) = some info ∧
      (info.isTextElement = true ↔
        (d.tagName.toLower ∈ textTags ∧ ∃ s, DomNode.text s ∈ cs ∧ jsTrim s ≠ "")) ∧
      (info.textContent.isSome = true ↔ info.isTextElement = true) ∧
      ∀ t, info.textContent = some t →
        t = jsSlice (jsTrim (textContentOf (.elem d cs))) 200 ∧ t.length ≤ 200 := by
  refine ⟨rfl, ?_⟩
  cases hinfo : getElementInfo env body (some path) with
  | none =>
    exfalso
    simp only [getElementInfo, h] at hinfo
    exact Option.noConfusion hinfo
  | some info =>
    simp only [getElementInfo, h, Option.some.injEq] at hinfo
    subst hinfo
    refine ⟨_, rfl, ?_⟩
    have keyb : (textTags.contains d.tagName.toLower && decide (0 < cs.length) &&
        cs.any isNonWsText) = true ↔
        (d.tagName.toLower ∈ textTags ∧ ∃ s, DomNode.text s ∈ cs ∧ jsTrim s ≠ "") := by
      simp only [Bool.and_eq_true, decide_eq_true_eq, List.any_eq_true]
      rw [exists_isNonWsText_iff]
      constructor
      · rintro ⟨⟨h1, _⟩, h3⟩
        exact ⟨by simpa using h1, h3⟩
      · rintro ⟨h1, h2⟩
        refine ⟨⟨by simpa using h1, ?_⟩, h2⟩
        obtain ⟨s, hm, _⟩ := h2
        exact List.length_pos.mpr (by rintro rfl; cases hm)
    set b := textTags.contains d.tagName.toLower && decide (0 < cs.length) &&
      cs.any isNonWsText with hbdef
    set v := jsSlice (jsTrim (textContentOf (.elem d cs))) 200 with hvdef
    by_cases hP : d.tagName.toLower ∈ textTags ∧ ∃ s, DomNode.text s ∈ cs ∧ jsTrim s ≠ ""
    · have hb := keyb.mpr hP
      have hne : v ≠ "" := jsSlice_ne_empty (jsTrim_textContentList_ne_empty hP.2)
      have htc : (if b = true then (if v = "" then none else some v) else none) = some v := by
        rw [if_pos hb, if_neg hne]
      refine ⟨iff_of_true hb hP, ?_, ?_⟩
      · show (if b = true then (if v = "" then none else some v) else none).isSome = true ↔
          b = true
        rw [htc]
        exact iff_of_true rfl hb
      · intro t ht
        have ht2 : (if b = true then (if v = "" then none else some v) else none) = some t := ht
        rw [htc] at ht2
        injection ht2 with ht3
        refine ⟨ht3.symm, ?_⟩
        rw [← ht3, hvdef]
        show (jsSlice (jsTrim (textContentOf (.elem d cs))) 200).data.length ≤ 200
        rw [jsSlice]
        simp
    · have hbf : ¬(b = true) := fun hbb => hP (keyb.mp hbb)
      have htc : (if b = true then (if v = "" then none else some v) else none) =
          (none : Option String) := if_neg hbf
      refine ⟨iff_of_false hbf hP, ?_, ?_⟩
      · show (if b = true then (if v = "" then none else some v) else none).isSome = true ↔
          b = true
        rw [htc]
        simp [hbf]
      · intro t ht
        have ht2 : (if b = true then (if v = "" then none else some v) else none) = some t := ht
        rw [htc] at ht2
        cases ht2

/-- Witness for C6 at a concrete document: a `P` under the body holding the
text `" hi "` and a nested `SPAN`. -/
theorem C6_witness :
    nodeAt (.elem (bareTag "BODY") [.elem (bareTag "P") [.text " hi ", .elem (bareTag "SPAN") []]]) [0] =
      some (.elem (bareTag "P") [.text " hi ", .elem (bareTag "SPAN") []]) ∧
    (getElementInfo envW (.elem (bareTag "BODY") [.elem (bareTag "P") [.text " hi ", .elem (bareTag "SPAN") []]]) none = none ∧
    ∃ info, getElementInfo envW (.elem (bareTag "BODY") [.elem (bareTag "P") [.text " hi ", .elem (bareTag "SPAN") []]]) (some [0]) = some info ∧
      (info.isTextElement = true ↔
        ((bareTag "P").tagName.toLower ∈ textTags ∧
          ∃ s, DomNode.text s ∈ [DomNode.text " hi ", .elem (bareTag "SPAN") []] ∧ jsTrim s ≠ "")) ∧
      (info.textContent.isSome = true ↔ info.isTextElement = true) ∧
      ∀ t, info.textContent = some t →
        t = jsSlice (jsTrim (textContentOf (.elem (bareTag "P") [.text " hi ", .elem (bareTag "SPAN") []]))) 200 ∧
          t.length ≤ 200) :=
  ⟨rfl, C6_textContent_iff_isTextElement envW _ [0] (bareTag "P")
    [.text " hi ", .elem (bareTag "SPAN") []] rfl⟩

/-! ### Update lemmas -/

theorem get?_setChild_self {cs : List DomNode} {i : Nat} {c : DomNode}
    (h : cs.get? i = some c) (x : DomNode) : (setChild cs i x).get? i = some x := by
  induction cs generalizing i with
  | nil => simp at h
  | cons a as ih =>
    cases i with
    | zero => rfl
    | succ j =>
      simp only [List.get?] at h
      simpa [setChild] using ih h

theorem nodeAt_updateAt {path : List Nat} : ∀ {n : DomNode} {m : DomNode}
    (_ : nodeAt n path = some m) (f : DomNode → DomNode),
    nodeAt (updateAt n path f) path = some (f m) := by
  induction path with
  | nil =>
    intro n m h f
    simp only [nodeAt] at h
    injection h with h
    subst h
    simp [nodeAt, updateAt]
  | cons i rest ih =>
    intro n m h f
    cases n with
    | text s => simp [nodeAt] at h
    | elem d cs =>
      simp only [nodeAt] at h
      cases hg : cs.get? i with
      | none => rw [hg] at h; exact absurd h (by simp)
      | some c =>
        rw [hg] at h
        have hg2 : cs[i]? = some c := by rw [← List.get?_eq_getElem?]; exact hg
        have hup : updateAt (.elem d cs) (i :: rest) f =
            .elem d (setChild cs i (updateAt c rest f)) := by
          simp [updateAt, hg2]
        rw [hup]
        simp only [nodeAt, get?_setChild_self hg]
        exact ih h f

theorem replaceFirstText_spec {cs : List DomNode} (txt : String)
    (h : cs.any isTextNode = true) :
    ∃ i t0, cs.get? i = some (.text t0) ∧
      (∀ j, j < i → ∀ n, cs.get? j = some n → isTextNode n = false) ∧
      (replaceFirstText cs txt).length = cs.length ∧
      (replaceFirstText cs txt).get? i = some (.text txt) ∧
      ∀ j, j ≠ i → (replaceFirstText cs txt).get? j = cs.get? j := by
  induction cs with
  | nil => simp at h
  | cons c rest ih =>
    cases c with
    | text t0 =>
      refine ⟨0, t0, rfl, by omega, by simp [replaceFirstText], rfl, ?_⟩
      intro j hj
      cases j with
      | zero => exact absurd rfl hj
      | succ k => rfl
    | elem d cs2 =>
      have hrest : rest.any isTextNode = true := by
        simpa [isTextNode] using h
      obtain ⟨i, t0, hget, hprior, hlen, hnew, hother⟩ := ih hrest
      refine ⟨i + 1, t0, hget, ?_, by simp [replaceFirstText, hlen], hnew, ?_⟩
      · intro j hj n hn
        cases j with
        | zero =>
          simp only [List.get?] at hn
          injection hn with hn
          rw [← hn]
          rfl
        | succ k => exact hprior k (by omega) n hn
      · intro j hj
        cases j with
        | zero => rfl
        | succ k => exact hother k (by simpa using hj)

/-- C4: for an element resolved by `applyTextChange`'s selector, when it has
a direct child text node only the first such text node is replaced with the
new text and every other child (in particular every non-text-node child) is
preserved at its position; when it has none, the element's entire text
content becomes the new text. -/
theorem C4_applyText_first_text_node (env : Browser) (doc : DomNode)
    (sel txt : String) (path : List Nat) (d : ElemData) (cs : List DomNode)
    (hq : env.qs sel = .found path) (hn : nodeAt doc path = some (.elem d cs)) :
    (cs.any isTextNode = true →
      ∃ cs', nodeAt (applyTextChange env doc sel txt).1 path = some (.elem d cs') ∧
        cs'.length = cs.length ∧
        ∃ i t0, cs.get? i = some (.text t0) ∧
          (∀ j, j < i → ∀ n, cs.get? j = some n → isTextNode n = false) ∧
          cs'.get? i = some (.text txt) ∧
          ∀ j, j ≠ i → cs'.get? j = cs.get? j) ∧
    (cs.any isTextNode = false →
      ∃ cs', nodeAt (applyTextChange env doc sel txt).1 path = some (.elem d cs') ∧
        textContentOf (.elem d cs') = txt) := by
  have hstep : (applyTextChange env doc sel txt).1 =
      updateAt doc path (applyTextToElem txt) := by
    simp [applyTextChange, applyTextChangeBody, hq]
  have hafter : nodeAt (applyTextChange env doc sel txt).1 path =
      some (applyTextToElem txt (.elem d cs)) := by
    rw [hstep]; exact nodeAt_updateAt hn (applyTextToElem txt)
  constructor
  · intro hany
    refine ⟨replaceFirstText cs txt, ?_, ?_⟩
    · rw [hafter]; simp [applyTextToElem, hany]
    · obtain ⟨i, t0, hget, hprior, hlen, hnew, hother⟩ := replaceFirstText_spec txt hany
      exact ⟨hlen, i, t0, hget, hprior, hnew, hother⟩
  · intro hnone
    refine ⟨if txt = "" then [] else [.text txt], ?_, ?_⟩
    · rw [hafter]; simp [applyTextToElem, hnone]
    · by_cases he : txt = ""
      · simp [he, textContentOf, textContentList]
      · simp only [he, if_neg, ite_false]
        show textContentOf (.text txt) ++ textContentList [] = txt
        simp [textContentOf, textContentList]

/-- Witness for C4 at `docW4`. -/
theorem C4_witness :
    (envW4.qs "#m" = QueryRes.found [0] ∧
      nodeAt docW4 [0] = some (.elem (bareTag "P") [.text "old", .elem (bareTag "B") []])) ∧
    (envW4.qs "#n" = QueryRes.found [1] ∧
      nodeAt docW4 [1] = some (.elem (bareTag "P") [.elem (bareTag "B") []])) ∧
    ([DomNode.text "old", .elem (bareTag "B") []].any isTextNode = true) ∧
    ([DomNode.elem (bareTag "B") []].any isTextNode = false) ∧
    (∃ cs', nodeAt (applyTextChange envW4 docW4 "#m" "new").1 [0] =
        some (.elem (bareTag "P") cs') ∧
      cs'.length = [DomNode.text "old", .elem (bareTag "B") []].length ∧
      ∃ i t0, [DomNode.text "old", .elem (bareTag "B") []].get? i = some (.text t0) ∧
        (∀ j, j < i → ∀ n, [DomNode.text "old", .elem (bareTag "B") []].get? j = some n →
          isTextNode n = false) ∧
        cs'.get? i = some (.text "new") ∧
        ∀ j, j ≠ i → cs'.get? j = [DomNode.text "old", .elem (bareTag "B") []].get? j) ∧
    (∃ cs', nodeAt (applyTextChange envW4 docW4 "#n" "new").1 [1] =
        some (.elem (bareTag "P") cs') ∧
      textContentOf (.elem (bareTag "P") cs') = "new") := by
  refine ⟨⟨rfl, rfl⟩, ⟨rfl, rfl⟩, rfl, rfl, ?_, ?_⟩
  · exact (C4_applyText_first_text_node envW4 docW4 "#m" "new" [0] (bareTag "P")
      [.text "old", .elem (bareTag "B") []] rfl rfl).1 rfl
  · exact (C4_applyText_first_text_node envW4 docW4 "#n" "new" [1] (bareTag "P")
      [.elem (bareTag "B") []] rfl rfl).2 rfl

/-- C5: `applyStyleChange` is a total function whose value carries no
failure indication beyond the console log — when the selector matches
nothing the document is returned unchanged (and nothing is thrown), when
`querySelector` throws on an invalid selector the error is swallowed into a
log entry and the document is returned unchanged, and when an element
matches its named inline style property is set to the given value. -/
theorem C5_applyStyle_total (env : Browser) (doc : DomNode)
    (sel prop value : String) :
    (env.qs sel = .notFound → applyStyleChange env doc sel prop value = (doc, [])) ∧
    (env.qs sel = .throwErr →
      applyStyleChange env doc sel prop value = (doc, [LogEntry.errApplyStyle])) ∧
    ∀ path d cs, env.qs sel = .found path → nodeAt doc path = some (.elem d cs) →
      (applyStyleChange env doc sel prop value).2 = [LogEntry.appliedStyle] ∧
      nodeAt (applyStyleChange env doc sel prop value).1 path =
        some (.elem { d with style := setStyleProp d.style prop value } cs) := by
  refine ⟨?_, ?_, ?_⟩
  · intro h; simp [applyStyleChange, applyStyleChangeBody, h]
  · intro h; simp [applyStyleChange, applyStyleChangeBody, h]
  · intro path d cs hq hn
    constructor
    · simp [applyStyleChange, applyStyleChangeBody, hq]
    · have hstep : (applyStyleChange env doc sel prop value).1 =
          updateAt doc path (setStyleOnElem prop value) := by
        simp [applyStyleChange, applyStyleChangeBody, hq]
      rw [hstep, nodeAt_updateAt hn (setStyleOnElem prop value)]
      rfl

/-- Witness for C5 at `docW5`, exercising all three query outcomes. -/
theorem C5_witness :
    (envW5.qs "#x" = QueryRes.notFound ∧
      applyStyleChange envW5 docW5 "#x" "color" "red" = (docW5, [])) ∧
    (envW5.qs "#bad" = QueryRes.throwErr ∧
      applyStyleChange envW5 docW5 "#bad" "color" "red" =
        (docW5, [LogEntry.errApplyStyle])) ∧
    (envW5.qs "#m" = QueryRes.found [0] ∧
      nodeAt docW5 [0] = some (.elem (bareTag "DIV") []) ∧
      (applyStyleChange envW5 docW5 "#m" "color" "red").2 = [LogEntry.appliedStyle] ∧
      nodeAt (applyStyleChange envW5 docW5 "#m" "color" "red").1 [0] =
        some (.elem { bareTag "DIV" with
          style := setStyleProp (bareTag "DIV").style "color" "red" } [])) := by
  refine ⟨⟨rfl, ?_⟩, ⟨rfl, ?_⟩, rfl, rfl, ?_⟩
  · exact (C5_applyStyle_total envW5 docW5 "#x" "color" "red").1 rfl
  · exact (C5_applyStyle_total envW5 docW5 "#bad" "color" "red").2.1 rfl
  · exact (C5_applyStyle_total envW5 docW5 "#m" "color" "red").2.2 [0]
      (bareTag "DIV") [] rfl rfl

/-! ### Field-preservation lemmas for the channel invariants -/

theorem enable_fields (s : GState) :
    (enableEditModeS s).readyAcknowledged = s.readyAcknowledged ∧
    (enableEditModeS s).readyInterval = s.readyInterval ∧
    (enableEditModeS s).msgListenerMain = s.msgListenerMain ∧
    (enableEditModeS s).msgListenerAck = s.msgListenerAck := by
  cases hh : s.highlightOverlay <;> cases hs : s.selectionOverlay <;>
    simp [enableEditModeS, createHighlightOverlayS, createSelectionOverlayS, hh, hs]

theorem updateSel_fields (env : Browser) (s : GState) (e : Option (List Nat)) :
    (updateSelectionOverlayS env s e).readyAcknowledged = s.readyAcknowledged ∧
    (updateSelectionOverlayS env s e).readyInterval = s.readyInterval ∧
    (updateSelectionOverlayS env s e).msgListenerMain = s.msgListenerMain ∧
    (updateSelectionOverlayS env s e).msgListenerAck = s.msgListenerAck := by
  unfold updateSelectionOverlayS createSelectionOverlayS
  cases hs : s.selectionOverlay <;> cases e <;> simp [hs]

theorem clearSel_fields (env : Browser) (s : GState) :
    (clearSelectionS env s).readyAcknowledged = s.readyAcknowledged ∧
    (clearSelectionS env s).readyInterval = s.readyInterval ∧
    (clearSelectionS env s).msgListenerMain = s.msgListenerMain ∧
    (clearSelectionS env s).msgListenerAck = s.msgListenerAck := by
  unfold clearSelectionS
  exact updateSel_fields env { s with selectedElement := none } none

theorem disable_fields (env : Browser) (s : GState) :
    (disableEditModeS env s).readyAcknowledged = s.readyAcknowledged ∧
    (disableEditModeS env s).readyInterval = s.readyInterval ∧
    (disableEditModeS env s).msgListenerMain = s.msgListenerMain ∧
    (disableEditModeS env s).msgListenerAck = s.msgListenerAck := by
  unfold disableEditModeS
  obtain ⟨h1, h2, h3, h4⟩ := clearSel_fields env
    { s with isEditModeActive := false, lastHoveredElement := none }
  cases hov : (clearSelectionS env
      { s with isEditModeActive := false, lastHoveredElement := none }).highlightOverlay <;>
    simp [hov, h1, h2, h3, h4]

theorem updateHi_fields (env : Browser) (s : GState) (e : Option (List Nat)) :
    (updateHighlightS env s e).readyAcknowledged = s.readyAcknowledged ∧
    (updateHighlightS env s e).readyInterval = s.readyInterval ∧
    (updateHighlightS env s e).msgListenerMain = s.msgListenerMain ∧
    (updateHighlightS env s e).msgListenerAck = s.msgListenerAck := by
  unfold updateHighlightS
  cases hh : s.highlightOverlay <;> cases e <;> simp [hh]

theorem handleMessage_preserves_ack (env : Browser) (s : GState) (d : Option Msg)
    (h : s.readyAcknowledged = true) :
    (handleMessageS env s d).readyAcknowledged = true := by
  unfold handleMessageS
  cases d with
  | none => exact h
  | some m =>
    repeat' split
    all_goals
      first
        | rfl
        | exact h
        | exact (enable_fields s).1.trans h
        | exact (disable_fields env s).1.trans h
        | exact (clearSel_fields env s).1.trans h
        | (dsimp only []; split <;> rfl)

theorem handleAck_preserves_ack (s : GState) (d : Option Msg)
    (h : s.readyAcknowledged = true) :
    (handleAckMessageS s d).readyAcknowledged = true := by
  unfold handleAckMessageS
  cases d with
  | none => exact h
  | some m =>
    repeat' split
    all_goals first | rfl | exact h | (dsimp only []; split <;> rfl)

theorem onWindowMessage_preserves_ack (env : Browser) (s : GState) (d : Option Msg)
    (h : s.readyAcknowledged = true) :
    (onWindowMessage env s d).readyAcknowledged = true := by
  unfold onWindowMessage
  split
  · dsimp only []
    split
    · exact handleAck_preserves_ack _ d (handleMessage_preserves_ack env s d h)
    · exact handleMessage_preserves_ack env s d h
  · dsimp only []
    split
    · exact handleAck_preserves_ack _ d h
    · exact h

theorem mouseMove_preserves_ack (env : Browser) (now : Nat) (s : GState)
    (t : List Nat) (h : s.readyAcknowledged = true) :
    ((handleMouseMoveS env now s t).1).readyAcknowledged = true := by
  unfold handleMouseMoveS
  dsimp only []
  repeat' split
  all_goals
    first
      | exact h
      | exact (updateHi_fields _ _ _).1.trans h

theorem click_preserves_ack (env : Browser) (s : GState) (t : List Nat)
    (h : s.readyAcknowledged = true) :
    ((handleClickS env s t).1).readyAcknowledged = true := by
  unfold handleClickS
  dsimp only []
  repeat' split
  all_goals
    first
      | exact h
      | exact (updateSel_fields _ _ _).1.trans h

theorem mouseLeave_preserves_ack (s : GState) (h : s.readyAcknowledged = true) :
    ((handleMouseLeaveS s).1).readyAcknowledged = true := by
  unfold handleMouseLeaveS
  dsimp only []
  repeat' split
  all_goals exact h

theorem step_preserves_ack (env : Browser) (s : GState) (e : Ev)
    (h : s.readyAcknowledged = true) :
    ((step env s e).1).readyAcknowledged = true := by
  cases e with
  | message d => exact onWindowMessage_preserves_ack env s d h
  | tick =>
    show ((readyTickS s).1).readyAcknowledged = true
    unfold readyTickS sendReadyS
    repeat' split
    all_goals exact h
  | timeout =>
    show (readyTimeoutS s).readyAcknowledged = true
    unfold readyTimeoutS
    split <;> exact h
  | mouseMove now t =>
    show ((if s.pointerListeners then handleMouseMoveS env now s t else (s, [])).1).readyAcknowledged = true
    split
    · exact mouseMove_preserves_ack env now s t h
    · exact h
  | click t =>
    show ((if s.pointerListeners then handleClickS env s t else (s, [])).1).readyAcknowledged = true
    split
    · exact click_preserves_ack env s t h
    · exact h
  | mouseLeave =>
    show ((if s.pointerListeners then handleMouseLeaveS s else (s, [])).1).readyAcknowledged = true
    split
    · exact mouseLeave_preserves_ack s h
    · exact h

theorem step_no_ready (env : Browser) (s : GState) (e : Ev)
    (h : s.readyAcknowledged = true) :
    OutMsg.ready ∉ (step env s e).2 := by
  cases e with
  | message d => simp [step]
  | tick =>
    show OutMsg.ready ∉ (readyTickS s).2
    unfold readyTickS sendReadyS
    repeat' split
    all_goals simp_all
  | timeout => simp [step]
  | mouseMove now t =>
    show OutMsg.ready ∉ ((if s.pointerListeners then handleMouseMoveS env now s t else (s, [])).2)
    split
    · unfold handleMouseMoveS
      dsimp only []
      repeat' split
      all_goals simp
    · simp
  | click t =>
    show OutMsg.ready ∉ ((if s.pointerListeners then handleClickS env s t else (s, [])).2)
    split
    · unfold handleClickS
      dsimp only []
      repeat' split
      all_goals simp
    · simp
  | mouseLeave =>
    show OutMsg.ready ∉ ((if s.pointerListeners then handleMouseLeaveS s else (s, [])).2)
    split
    · unfold handleMouseLeaveS
      dsimp only []
      repeat' split
      all_goals simp
    · simp

theorem runEvents_no_ready (env : Browser) (s : GState) (evs : List Ev)
    (h : s.readyAcknowledged = true) :
    OutMsg.ready ∉ (runEvents env s evs).2 := by
  induction evs generalizing s with
  | nil => simp [runEvents]
  | cons e es ih =>
    simp only [runEvents, List.mem_append]
    push_neg
    exact ⟨step_no_ready env s e h,
      ih ((step env s e).1) (step_preserves_ack env s e h)⟩

theorem handleMessage_on_ack (env : Browser) (s : GState) (p : Option Payload) :
    (handleMessageS env s (some { type := "EDIT_MODE_READY_ACK", payload := p })).readyAcknowledged = true ∧
    (handleMessageS env s (some { type := "EDIT_MODE_READY_ACK", payload := p })).readyInterval = false := by
  unfold handleMessageS
  dsimp only []
  simp only [String.reduceEq, if_false, if_true, reduceIte]
  split <;> simp_all

theorem handleMessage_on_enable (env : Browser) (s : GState) (p : Option Payload) :
    handleMessageS env s (some { type := "EDIT_MODE_ENABLE", payload := p }) =
      enableEditModeS s := by
  unfold handleMessageS
  dsimp only []
  simp only [String.reduceEq, if_false, if_true, reduceIte]

theorem handleAck_on_match (s : GState) (p : Option Payload) (ty : String)
    (h : ty = "EDIT_MODE_ENABLE" ∨ ty = "EDIT_MODE_READY_ACK") :
    (handleAckMessageS s (some { type := ty, payload := p })).readyAcknowledged = true ∧
    (handleAckMessageS s (some { type := ty, payload := p })).readyInterval = false := by
  unfold handleAckMessageS
  dsimp only []
  rw [if_pos h]
  split <;> simp_all

/-- C2: once `EDIT_MODE_READY_ACK` is handled, `readyAcknowledged` is true,
the retry interval is cancelled, and no sequence of further events — in
particular no further inbound message of any type — ever produces another
`EDIT_MODE_READY` post. -/
theorem C2_ack_stops_ready_forever (env : Browser) (s : GState) (p : Option Payload)
    (hm : s.msgListenerMain = true) :
    ((step env s (.message (some { type := "EDIT_MODE_READY_ACK", payload := p }))).1).readyAcknowledged = true ∧
    ((step env s (.message (some { type := "EDIT_MODE_READY_ACK", payload := p }))).1).readyInterval = false ∧
    ∀ evs, OutMsg.ready ∉
      (runEvents env ((step env s (.message (some { type := "EDIT_MODE_READY_ACK", payload := p }))).1) evs).2 := by
  have hkey : ((step env s (.message (some { type := "EDIT_MODE_READY_ACK", payload := p }))).1).readyAcknowledged = true ∧
      ((step env s (.message (some { type := "EDIT_MODE_READY_ACK", payload := p }))).1).readyInterval = false := by
    show (onWindowMessage env s (some { type := "EDIT_MODE_READY_ACK", payload := p })).readyAcknowledged = true ∧
      (onWindowMessage env s (some { type := "EDIT_MODE_READY_ACK", payload := p })).readyInterval = false
    unfold onWindowMessage
    rw [if_pos hm]
    dsimp only []
    split
    · exact handleAck_on_match _ p "EDIT_MODE_READY_ACK" (Or.inr rfl)
    · exact handleMessage_on_ack env s p
  exact ⟨hkey.1, hkey.2, fun evs => runEvents_no_ready env _ evs hkey.1⟩

/-- Witness for C2: the acknowledgment arrives in the freshly started
state; afterwards a tick, another message and a pointer move post no ready
beacon. -/
theorem C2_witness :
    liveState.msgListenerMain = true ∧
    (((step envW5 liveState (.message (some { type := "EDIT_MODE_READY_ACK", payload := none }))).1).readyAcknowledged = true ∧
     ((step envW5 liveState (.message (some { type := "EDIT_MODE_READY_ACK", payload := none }))).1).readyInterval = false ∧
     ∀ evs, OutMsg.ready ∉
       (runEvents envW5 ((step envW5 liveState (.message (some { type := "EDIT_MODE_READY_ACK", payload := none }))).1) evs).2) :=
  ⟨rfl, C2_ack_stops_ready_forever envW5 liveState none rfl⟩

/-- C10: an inbound `EDIT_MODE_ENABLE` is treated by `handleAckMessage`
exactly like an acknowledgment — it sets `readyAcknowledged`, cancels the
retry interval, and permanently silences the ready beacon. -/
theorem C10_enable_acts_as_ack (env : Browser) (s : GState) (p : Option Payload)
    (ha : s.msgListenerAck = true) :
    ((step env s (.message (some { type := "EDIT_MODE_ENABLE", payload := p }))).1).readyAcknowledged = true ∧
    ((step env s (.message (some { type := "EDIT_MODE_ENABLE", payload := p }))).1).readyInterval = false ∧
    ∀ evs, OutMsg.ready ∉
      (runEvents env ((step env s (.message (some { type := "EDIT_MODE_ENABLE", payload := p }))).1) evs).2 := by
  have hkey : ((step env s (.message (some { type := "EDIT_MODE_ENABLE", payload := p }))).1).readyAcknowledged = true ∧
      ((step env s (.message (some { type := "EDIT_MODE_ENABLE", payload := p }))).1).readyInterval = false := by
    show (onWindowMessage env s (some { type := "EDIT_MODE_ENABLE", payload := p })).readyAcknowledged = true ∧
      (onWindowMessage env s (some { type := "EDIT_MODE_ENABLE", payload := p })).readyInterval = false
    unfold onWindowMessage
    dsimp only []
    by_cases hmain : s.msgListenerMain = true
    · rw [if_pos hmain, handleMessage_on_enable env s p,
        if_pos ((enable_fields s).2.2.2.trans ha)]
      exact handleAck_on_match _ p "EDIT_MODE_ENABLE" (Or.inl rfl)
    · rw [if_neg hmain, if_pos ha]
      exact handleAck_on_match _ p "EDIT_MODE_ENABLE" (Or.inl rfl)
  exact ⟨hkey.1, hkey.2, fun evs => runEvents_no_ready env _ evs hkey.1⟩

/-- Witness for C10 in the freshly started state. -/
theorem C10_witness :
    liveState.msgListenerAck = true ∧
    (((step envW5 liveState (.message (some { type := "EDIT_MODE_ENABLE", payload := none }))).1).readyAcknowledged = true ∧
     ((step envW5 liveState (.message (some { type := "EDIT_MODE_ENABLE", payload := none }))).1).readyInterval = false ∧
     ∀ evs, OutMsg.ready ∉
       (runEvents envW5 ((step envW5 liveState (.message (some { type := "EDIT_MODE_ENABLE", payload := none }))).1) evs).2) :=
  ⟨rfl, C10_enable_acts_as_ack envW5 liveState none rfl⟩

/-- C7: calling `initEditMode` while the window flag is set returns the
stored teardown handle and changes nothing: no listeners, overlays, beacons
or timers are added (the state and the output trace are untouched). -/
theorem C7_init_guard (s : GState) (hinit : s.initFlag = true)
    (hreg : s.cleanupRegistered = true) :
    initEditModeS s = (s, Handle.cleanup, []) := by
  unfold initEditModeS
  rw [if_pos hinit, if_pos hreg]

/-- Witness for C7 in the freshly started state. -/
theorem C7_witness :
    liveState.initFlag = true ∧ liveState.cleanupRegistered = true ∧
    initEditModeS liveState = (liveState, Handle.cleanup, []) :=
  ⟨rfl, rfl, C7_init_guard liveState rfl rfl⟩

/-- Counterexample for C3: running the teardown closure on a state with a
selected element, a hover target and attached pointer listeners leaves all
three in place — the cleanup function does not clear the element references
and does not detach the pointer listeners. -/
theorem C3_counterexample :
    (initEditModeS (freshState docW5)).2.1 = Handle.cleanup ∧
    (runHandle Handle.cleanup stateC3).selectedElement = some [0] ∧
    (runHandle Handle.cleanup stateC3).lastHoveredElement = some [0] ∧
    (runHandle Handle.cleanup stateC3).pointerListeners = true :=
  ⟨rfl, rfl, rfl, rfl⟩

/-- C3 (amended): a fresh `initEditMode` returns the real teardown handle;
running it removes both message listeners, cancels a pending retry timer,
removes both overlay nodes and resets the window flag; it is idempotent
(a second run changes nothing); it leaves the selected element, the hover
target and the pointer listeners untouched. -/
theorem C3_teardown_amended (t s : GState) (ht : t.initFlag = false) :
    (initEditModeS t).2.1 = Handle.cleanup ∧
    (runHandle Handle.cleanup s).msgListenerMain = false ∧
    (runHandle Handle.cleanup s).msgListenerAck = false ∧
    (runHandle Handle.cleanup s).readyInterval = false ∧
    (runHandle Handle.cleanup s).highlightOverlay = none ∧
    (runHandle Handle.cleanup s).selectionOverlay = none ∧
    (runHandle Handle.cleanup s).initFlag = false ∧
    runHandle Handle.cleanup (runHandle Handle.cleanup s) = runHandle Handle.cleanup s ∧
    (runHandle Handle.cleanup s).selectedElement = s.selectedElement ∧
    (runHandle Handle.cleanup s).lastHoveredElement = s.lastHoveredElement ∧
    (runHandle Handle.cleanup s).pointerListeners = s.pointerListeners := by
  have hne : ¬ t.initFlag = true := by rw [ht]; exact Bool.false_ne_true
  refine ⟨?_, rfl, rfl, rfl, rfl, rfl, rfl, rfl, rfl, rfl, rfl⟩
  unfold initEditModeS
  rw [if_neg hne]

/-- Witness for C3 (amended) at the concrete fresh and live states. -/
theorem C3_witness :
    (freshState docW5).initFlag = false ∧
    ((initEditModeS (freshState docW5)).2.1 = Handle.cleanup ∧
     (runHandle Handle.cleanup stateC3).msgListenerMain = false ∧
     (runHandle Handle.cleanup stateC3).msgListenerAck = false ∧
     (runHandle Handle.cleanup stateC3).readyInterval = false ∧
     (runHandle Handle.cleanup stateC3).highlightOverlay = none ∧
     (runHandle Handle.cleanup stateC3).selectionOverlay = none ∧
     (runHandle Handle.cleanup stateC3).initFlag = false ∧
     runHandle Handle.cleanup (runHandle Handle.cleanup stateC3) = runHandle Handle.cleanup stateC3 ∧
     (runHandle Handle.cleanup stateC3).selectedElement = stateC3.selectedElement ∧
     (runHandle Handle.cleanup stateC3).lastHoveredElement = stateC3.lastHoveredElement ∧
     (runHandle Handle.cleanup stateC3).pointerListeners = stateC3.pointerListeners) :=
  ⟨rfl, C3_teardown_amended (freshState docW5) stateC3 rfl⟩

theorem handleMessage_on_clear (env : Browser) (s : GState) (p : Option Payload) :
    handleMessageS env s (some { type := "CLEAR_SELECTION", payload := p }) =
      clearSelectionS env s := by
  unfold handleMessageS
  dsimp only []
  simp only [String.reduceEq, if_false, if_true, reduceIte]

theorem handleAck_on_clear (s : GState) (p : Option Payload) :
    handleAckMessageS s (some { type := "CLEAR_SELECTION", payload := p }) = s := by
  unfold handleAckMessageS
  dsimp only []
  rw [if_neg (by simp)]

theorem onWindowMessage_clear (env : Browser) (s : GState) (p : Option Payload)
    (hm : s.msgListenerMain = true) :
    onWindowMessage env s (some { type := "CLEAR_SELECTION", payload := p }) =
      clearSelectionS env s := by
  unfold onWindowMessage
  dsimp only []
  rw [if_pos hm, handleMessage_on_clear env s p]
  by_cases hA : (clearSelectionS env s).msgListenerAck = true
  · rw [if_pos hA, handleAck_on_clear]
  · rw [if_neg hA]

/-- Counterexample for C9: receiving `CLEAR_SELECTION` with nothing
selected is not always a state no-op — when the selection overlay node has
not been created yet, `updateSelectionOverlay` lazily creates it, so the
engine state changes. -/
theorem C9_counterexample :
    stateC9.selectedElement = none ∧
    stateC9.selectionOverlay = none ∧
    (onWindowMessage envW5 stateC9
      (some { type := "CLEAR_SELECTION", payload := none })).selectionOverlay =
        some hiddenOverlay ∧
    onWindowMessage envW5 stateC9
      (some { type := "CLEAR_SELECTION", payload := none }) ≠ stateC9 := by
  refine ⟨rfl, rfl, rfl, ?_⟩
  intro hcontra
  have h2 := congrArg GState.selectionOverlay hcontra
  rw [show (onWindowMessage envW5 stateC9
      (some { type := "CLEAR_SELECTION", payload := none })).selectionOverlay =
        some hiddenOverlay from rfl] at h2
  exact Option.noConfusion (h2.trans (rfl : stateC9.selectionOverlay = none))

/-- C9 (amended): receiving `CLEAR_SELECTION` with nothing selected raises
no error, keeps the selected-element reference null and leaves the selection
overlay hidden; if the overlay node already exists (hidden), the engine
state is completely unchanged — the only possible state change is the lazy
creation of the hidden overlay node. -/
theorem C9_clear_noop_amended (env : Browser) (s : GState) (p : Option Payload)
    (hsel : s.selectedElement = none) (hm : s.msgListenerMain = true) :
    (onWindowMessage env s (some { type := "CLEAR_SELECTION", payload := p })).selectedElement = none ∧
    (∃ ov, (onWindowMessage env s
        (some { type := "CLEAR_SELECTION", payload := p })).selectionOverlay = some ov ∧
      ov.display = "none") ∧
    ∀ ov, s.selectionOverlay = some ov → ov.display = "none" →
      onWindowMessage env s (some { type := "CLEAR_SELECTION", payload := p }) = s := by
  rw [onWindowMessage_clear env s p hm]
  cases hov : s.selectionOverlay with
  | none =>
    have hred : clearSelectionS env s =
        { s with
            selectedElement := none
            selectionOverlay := some { hiddenOverlay with display := "none" } } := by
      unfold clearSelectionS updateSelectionOverlayS createSelectionOverlayS
      simp [hov]
    rw [hred]
    refine ⟨rfl, ⟨_, rfl, rfl⟩, ?_⟩
    intro ov' h1 _
    exact Option.noConfusion h1
  | some ov =>
    have hred : clearSelectionS env s =
        { s with
            selectedElement := none
            selectionOverlay := some { ov with display := "none" } } := by
      unfold clearSelectionS updateSelectionOverlayS createSelectionOverlayS
      simp [hov]
    rw [hred]
    refine ⟨rfl, ⟨_, rfl, rfl⟩, ?_⟩
    intro ov' h1 h2
    injection h1 with h1
    subst h1
    have hovn : { ov with display := "none" } = ov := by
      cases ov with
      | mk dsp t l w hh =>
        simp only at h2
        rw [h2]
    rw [hovn, ← hsel, ← hov]

/-- Witness for C9 (amended) at `stateW9`. -/
theorem C9_witness :
    stateW9.selectedElement = none ∧ stateW9.msgListenerMain = true ∧
    ((onWindowMessage envW5 stateW9
        (some { type := "CLEAR_SELECTION", payload := none })).selectedElement = none ∧
     (∃ ov, (onWindowMessage envW5 stateW9
        (some { type := "CLEAR_SELECTION", payload := none })).selectionOverlay = some ov ∧
       ov.display = "none") ∧
     ∀ ov, stateW9.selectionOverlay = some ov → ov.display = "none" →
       onWindowMessage envW5 stateW9
         (some { type := "CLEAR_SELECTION", payload := none }) = stateW9) :=
  ⟨rfl, rfl, C9_clear_noop_amended envW5 stateW9 none rfl rfl⟩

theorem updateHi_fields2 (env : Browser) (s : GState) (e : Option (List Nat)) :
    (updateHighlightS env s e).lastFrameTime = s.lastFrameTime ∧
    (updateHighlightS env s e).isEditModeActive = s.isEditModeActive ∧
    (updateHighlightS env s e).pointerListeners = s.pointerListeners := by
  unfold updateHighlightS
  cases hh : s.highlightOverlay <;> cases e <;> simp [hh]

theorem mouseMove_dropped (env : Browser) (s : GState) (now : Nat) (t : List Nat)
    (hact : s.isEditModeActive = true) (hpl : s.pointerListeners = true)
    (hthr : now - s.lastFrameTime < 16) :
    step env s (.mouseMove now t) = (s, []) := by
  show (if s.pointerListeners = true then handleMouseMoveS env now s t else (s, [])) = (s, [])
  rw [if_pos hpl]
  unfold handleMouseMoveS
  have h1 : ¬ ((!s.isEditModeActive) = true) := by rw [hact]; simp
  rw [if_neg h1, if_pos hthr]

theorem mouseMove_out_len (env : Browser) (now : Nat) (s : GState) (t : List Nat) :
    (step env s (.mouseMove now t)).2.length ≤ 1 := by
  show ((if s.pointerListeners = true then handleMouseMoveS env now s t else (s, [])).2).length ≤ 1
  split
  · unfold handleMouseMoveS
    dsimp only []
    repeat' split
    all_goals simp
  · simp

theorem handleMouseMove_processed (env : Browser) (now : Nat) (s : GState) (t : List Nat)
    (hact : s.isEditModeActive = true) (hthr : ¬ now - s.lastFrameTime < 16) :
    ((handleMouseMoveS env now s t).1).lastFrameTime = now ∧
    ((handleMouseMoveS env now s t).1).isEditModeActive = s.isEditModeActive ∧
    ((handleMouseMoveS env now s t).1).pointerListeners = s.pointerListeners := by
  unfold handleMouseMoveS
  have h1 : ¬ ((!s.isEditModeActive) = true) := by rw [hact]; simp
  rw [if_neg h1, if_neg hthr]
  dsimp only []
  refine ⟨?_, ?_, ?_⟩ <;>
    · repeat' split
      all_goals
        first
          | rfl
          | exact (updateHi_fields2 env _ _).1
          | exact (updateHi_fields2 env _ _).2.1
          | exact (updateHi_fields2 env _ _).2.2

theorem mouseMove_cases (env : Browser) (now : Nat) (s : GState) (t : List Nat) :
    step env s (.mouseMove now t) = (s, []) ∨
    (((step env s (.mouseMove now t)).1).lastFrameTime = now ∧
     ((step env s (.mouseMove now t)).1).isEditModeActive = true ∧
     ((step env s (.mouseMove now t)).1).pointerListeners = true) := by
  by_cases hpl : s.pointerListeners = true
  · by_cases hact : s.isEditModeActive = true
    · by_cases hthr : now - s.lastFrameTime < 16
      · exact Or.inl (mouseMove_dropped env s now t hact hpl hthr)
      · right
        have hred : step env s (.mouseMove now t) = handleMouseMoveS env now s t := by
          show (if s.pointerListeners = true then handleMouseMoveS env now s t
            else (s, [])) = handleMouseMoveS env now s t
          rw [if_pos hpl]
        rw [hred]
        obtain ⟨h1, h2, h3⟩ := handleMouseMove_processed env now s t hact hthr
        exact ⟨h1, h2.trans hact, h3.trans hpl⟩
    · left
      show (if s.pointerListeners = true then handleMouseMoveS env now s t
        else (s, [])) = (s, [])
      rw [if_pos hpl]
      unfold handleMouseMoveS
      have h1 : (!s.isEditModeActive) = true := by
        cases hb : s.isEditModeActive
        · rfl
        · exact absurd hb hact
      rw [if_pos h1]
  · left
    show (if s.pointerListeners = true then handleMouseMoveS env now s t
      else (s, [])) = (s, [])
    rw [if_neg hpl]

/-- C8: a pointer move arriving less than 16ms (by the monotonic clock)
after the last processed move is dropped with no state change and no
outbound message; consequently any two pointer moves within 10ms of each
other produce at most one hover update. -/
theorem C8_mousemove_throttle (env : Browser) (s : GState) (now : Nat)
    (t : List Nat) (hact : s.isEditModeActive = true)
    (hpl : s.pointerListeners = true)
    (hmono : s.lastFrameTime ≤ now) (hlt : now < s.lastFrameTime + 16) :
    step env s (.mouseMove now t) = (s, []) ∧
    ∀ (s0 : GState) (t1 t2 : Nat) (tg1 tg2 : List Nat), t1 ≤ t2 → t2 ≤ t1 + 10 →
      ((runEvents env s0 [.mouseMove t1 tg1, .mouseMove t2 tg2]).2.countP isHoveredMsg) ≤ 1 := by
  constructor
  · exact mouseMove_dropped env s now t hact hpl (by omega)
  · intro s0 t1 t2 tg1 tg2 h12 h10
    have hrun : (runEvents env s0 [.mouseMove t1 tg1, .mouseMove t2 tg2]).2 =
        (step env s0 (.mouseMove t1 tg1)).2 ++
          ((step env ((step env s0 (.mouseMove t1 tg1)).1) (.mouseMove t2 tg2)).2 ++ []) := by
      simp [runEvents]
    rw [hrun]
    rcases mouseMove_cases env t1 s0 tg1 with hdrop | hproc
    · rw [hdrop]
      simp only [List.append_nil, List.nil_append]
      calc ((step env s0 (.mouseMove t2 tg2)).2.countP isHoveredMsg)
          ≤ (step env s0 (.mouseMove t2 tg2)).2.length := List.countP_le_length _
        _ ≤ 1 := mouseMove_out_len env t2 s0 tg2
    · obtain ⟨h1, h2, h3⟩ := hproc
      have hdrop2 : step env ((step env s0 (.mouseMove t1 tg1)).1) (.mouseMove t2 tg2) =
          ((step env s0 (.mouseMove t1 tg1)).1, []) :=
        mouseMove_dropped env _ t2 tg2 h2 h3 (by rw [h1]; omega)
      rw [hdrop2]
      simp only [List.append_nil]
      calc ((step env s0 (.mouseMove t1 tg1)).2.countP isHoveredMsg)
          ≤ (step env s0 (.mouseMove t1 tg1)).2.length := List.countP_le_length _
        _ ≤ 1 := mouseMove_out_len env t1 s0 tg1

/-- Witness for C8: in `stateC3` (active, listeners attached,
`lastFrameTime = 100`) a move at 110ms is dropped. -/
theorem C8_witness :
    stateC3.isEditModeActive = true ∧ stateC3.pointerListeners = true ∧
    stateC3.lastFrameTime ≤ 110 ∧ 110 < stateC3.lastFrameTime + 16 ∧
    (step envW5 stateC3 (.mouseMove 110 [0]) = (stateC3, []) ∧
     ∀ (s0 : GState) (t1 t2 : Nat) (tg1 tg2 : List Nat), t1 ≤ t2 → t2 ≤ t1 + 10 →
       ((runEvents envW5 s0 [.mouseMove t1 tg1, .mouseMove t2 tg2]).2.countP isHoveredMsg) ≤ 1) :=
  ⟨rfl, rfl, by decide, by decide,
    C8_mousemove_throttle envW5 stateC3 110 [0] rfl rfl (by decide) (by decide)⟩

end VlibeEdit
